import Mathlib

/-!
Verification of the Fetch-doccy query-serving pipeline.

This file gives a shallow embedding, in Lean, of the tenant-scoped search
service: query-plan construction (src/services/opensearch.service.ts),
cache-aside caching (src/services/cache.service.ts backed by
src/services/redis.service.ts), per-tenant fixed-window rate limiting
(src/middleware/rateLimiter.ts), and the document/search HTTP route logic
(src/routes/documents.routes.ts, src/routes/search.routes.ts).  External
systems (the OpenSearch engine, the Redis client, the sha256 digest) are
modelled at their interface boundary: the index is an association list from
backing-index ids to stored documents, Redis is an association list of
key/value/ttl entries together with an explicit "down" state in which every
call fails, and the digest is an arbitrary function parameter.  Asynchronous
JavaScript is modelled by explicit state passing; JavaScript truthiness on
defaulting expressions such as `x || d` is modelled by explicit helpers.
-/

namespace FetchDoccy

/-- JavaScript defaulting `v || d` on an optional number: `0`, like
`undefined`, is falsy and yields the default. -/
def jsOrNat (v : Option Nat) (d : Nat) : Nat :=
  match v with
  | some n => if n = 0 then d else n
  | none => d

/-- JavaScript defaulting `v || d` on an optional string: the empty string,
like `undefined`, is falsy and yields the default. -/
def jsOrStr (v : Option String) (d : String) : String :=
  match v with
  | some s => if s = "" then d else s
  | none => d

/-- JavaScript truthiness of an optional string: present and non-empty. -/
def jsStrTruthy (v : Option String) : Option String :=
  match v with
  | some s => if s = "" then none else some s
  | none => none

/-- Document metadata, from the `metadata` field of `Document` in
src/types/index.ts. -/
structure Metadata where
  author : Option String
  type : Option String
  department : Option String
deriving DecidableEq, Repr

/-- The `Document` interface of src/types/index.ts. -/
structure Document where
  id : Option String
  tenantId : String
  title : String
  content : String
  tags : Option (List String)
  metadata : Option Metadata
  createdAt : Option String
  updatedAt : Option String
deriving DecidableEq, Repr

/-- The `DocumentIndex` interface of src/types/index.ts: the shape stored in
the backing index. -/
structure DocumentIndex where
  tenant_id : String
  doc_id : String
  title : String
  content : String
  tags : Option (List String)
  metadata : Option Metadata
  created_at : String
  updated_at : String
deriving DecidableEq, Repr

/-- The `SearchQuery` interface of src/types/index.ts.  The TypeScript
fields `from` and `to` are named `fromDate` and `toDate` here because `from`
is reserved in Lean. -/
structure SearchQuery where
  q : String
  offset : Option Nat
  limit : Option Nat
  tag : Option String
  author : Option String
  fromDate : Option String
  toDate : Option String
deriving DecidableEq, Repr

/-- The `SearchResult` interface of src/types/index.ts.  Engine relevance
scores are opaque pass-through values here (the service does no arithmetic
on them), modelled as naturals. -/
structure SearchResult where
  id : String
  title : String
  snippet : String
  score : Nat
  tags : List String
deriving DecidableEq, Repr

/-- The `SearchResponse` interface of src/types/index.ts. -/
structure SearchResponse where
  tenantId : String
  query : String
  offset : Nat
  limit : Nat
  total : Nat
  results : List SearchResult
deriving DecidableEq, Repr

/-! ## The query plan (`searchBody`) built by `OpenSearchService.search` -/

/-- One entry of the `filter` clause list of the OpenSearch bool query:
either a `term` filter on a keyword field or a `range` filter with optional
`gte` and `lte` bounds. -/
inductive FilterClause
  | term (field : String) (value : String)
  | range (field : String) (gte : Option String) (lte : Option String)
deriving DecidableEq, Repr

/-- One entry of the inner `should` list: the `multi_match` clause built for
a non-empty query text. -/
inductive ShouldClause
  | multiMatch (query : String) (fields : List String) (mmType : String) (operator : String)
deriving DecidableEq, Repr

/-- One entry of the `must` clause list of the OpenSearch bool query. -/
inductive MustClause
  | matchAll
  | boolShould (should : List ShouldClause)
deriving DecidableEq, Repr

/-- The `searchBody` object assembled by `OpenSearchService.search`
(src/services/opensearch.service.ts lines 186-261).  `fromOffset` is the
`from` field of the body (`from` is reserved in Lean). -/
structure SearchBody where
  must : List MustClause
  filter : List FilterClause
  fromOffset : Nat
  size : Nat
  sourceFields : List String
  highlightContentFragmentSize : Nat
  highlightContentNumberOfFragments : Nat
deriving DecidableEq, Repr

/-- Query-plan construction, translated from `OpenSearchService.search`:
offset defaults to 0, limit defaults to 10 and is capped at 50, the tenant
term filter is pushed first and unconditionally, the full-text clause is a
`multi_match` over `title^3`, `content`, `tags^2` when the query text is
truthy and non-whitespace and `match_all` otherwise, and each truthy
optional filter contributes one more filter clause. -/
def buildSearchBody (tenantId : String) (query : SearchQuery) : SearchBody :=
  let offset := jsOrNat query.offset 0
  let limit := min (jsOrNat query.limit 10) 50
  let mustClauses : List MustClause :=
    if query.q ≠ "" ∧ query.q.trim ≠ "" then
      [MustClause.boolShould
        [ShouldClause.multiMatch query.q ["title^3", "content", "tags^2"] "best_fields" "or"]]
    else
      [MustClause.matchAll]
  let filterClauses : List FilterClause :=
    [FilterClause.term "tenant_id" tenantId]
    ++ (match jsStrTruthy query.tag with
        | some tg => [FilterClause.term "tags" tg]
        | none => [])
    ++ (match jsStrTruthy query.author with
        | some a => [FilterClause.term "metadata.author" a]
        | none => [])
    ++ (if (jsStrTruthy query.fromDate).isSome ∨ (jsStrTruthy query.toDate).isSome then
          [FilterClause.range "created_at" (jsStrTruthy query.fromDate) (jsStrTruthy query.toDate)]
        else [])
  { must := mustClauses
    filter := filterClauses
    fromOffset := offset
    size := limit
    sourceFields := ["doc_id", "title", "content", "tags", "metadata"]
    highlightContentFragmentSize := 150
    highlightContentNumberOfFragments := 1 }

/-- Highlight fragments returned by the engine for one hit; an absent
highlight is an empty list. -/
structure Highlight where
  content : List String
  title : List String
deriving DecidableEq, Repr

/-- One raw hit returned by the engine. -/
structure Hit where
  source : DocumentIndex
  score : Nat
  highlight : Highlight
deriving DecidableEq, Repr

/-- The raw response of the engine for one executed query plan. -/
structure EngineResponse where
  hits : List Hit
  total : Nat
deriving DecidableEq, Repr

/-- Mapping of one raw hit to a `SearchResult`, from
`OpenSearchService.search` lines 271-292: the snippet prefers the content
highlight, then the title highlight, then a 150-character prefix of the
content with an ellipsis when truncated. -/
def mapHit (hit : Hit) : SearchResult :=
  let snippet :=
    match hit.highlight.content with
    | c :: _ => c
    | [] =>
      match hit.highlight.title with
      | t :: _ => t
      | [] => hit.source.content.take 150
              ++ (if hit.source.content.length > 150 then "..." else "")
  { id := hit.source.doc_id
    title := hit.source.title
    snippet := snippet
    score := hit.score
    tags := hit.source.tags.getD [] }

/-- Execution of a search: the plan built by `buildSearchBody` is handed to
the engine (an arbitrary function, standing for the OpenSearch client) and
the hits are mapped to results. -/
def osSearch (engine : SearchBody → EngineResponse) (tenantId : String) (query : SearchQuery) :
    List SearchResult × Nat :=
  ((engine (buildSearchBody tenantId query)).hits.map mapHit,
   (engine (buildSearchBody tenantId query)).total)

/-- Decimal digit test on a character, mirroring the `\d` character class. -/
def isDigitChar (c : Char) : Bool :=
  48 ≤ c.toNat && c.toNat ≤ 57

/-- Value of a list of decimal digits, most significant first. -/
def natOfDigits (cs : List Char) : Nat :=
  cs.foldl (fun acc c => acc * 10 + (c.toNat - 48)) 0

/-- Decimal parse of a string: succeeds exactly on the strings matched by
the regex `^\d+$` (non-empty, all digits), yielding their numeric value, as
the zod `regex(/^\d+$/).transform(Number)` pipeline does. -/
def strToNat? (s : String) : Option Nat :=
  if s.data ≠ [] ∧ s.data.all isDigitChar then some (natOfDigits s.data) else none

/-- Field-boost reading of an OpenSearch field spec such as `title^3`: the
field name before the caret and the numeric boost after it, the boost
defaulting to 1 when absent. -/
def fieldAndBoost (s : String) : String × Nat :=
  let f := s.data.takeWhile (fun c => !(c == '^'))
  let rest := s.data.dropWhile (fun c => !(c == '^'))
  match rest with
  | [] => (String.mk f, 1)
  | _ :: b => (String.mk f, (strToNat? (String.mk b)).getD 1)

/-- C1: every query plan contains the mandatory tenant term filter on
`tenant_id`, injected first by the planner itself from the server-side
tenant argument (the `SearchQuery` request type has no tenant field at
all), and `osSearch` executes exactly the plan built by
`buildSearchBody`. -/
theorem tenant_filter_always_injected (tenantId : String) (query : SearchQuery) :
    (buildSearchBody tenantId query).filter.head? = some (FilterClause.term "tenant_id" tenantId)
    ∧ FilterClause.term "tenant_id" tenantId ∈ (buildSearchBody tenantId query).filter
    ∧ ∀ engine : SearchBody → EngineResponse,
        osSearch engine tenantId query =
          ((engine (buildSearchBody tenantId query)).hits.map mapHit,
           (engine (buildSearchBody tenantId query)).total) := by
  refine ⟨rfl, ?_, fun _ => rfl⟩
  show FilterClause.term "tenant_id" tenantId ∈ FilterClause.term "tenant_id" tenantId :: _
  exact List.mem_cons_self _ _

/-- C8: an empty or whitespace query text yields a `match_all` must clause,
a non-empty one yields the weighted `multi_match` over title (boost 3),
content (boost 1) and tags (boost 2) with best-fields OR semantics; the
filter clauses, tenant filter included, do not depend on the query text. -/
theorem match_all_and_weighted_fields (tenantId : String) (query : SearchQuery) :
    (buildSearchBody tenantId query).must =
      (if query.q ≠ "" ∧ query.q.trim ≠ "" then
        [MustClause.boolShould
          [ShouldClause.multiMatch query.q ["title^3", "content", "tags^2"] "best_fields" "or"]]
      else [MustClause.matchAll])
    ∧ ["title^3", "content", "tags^2"].map fieldAndBoost =
        [("title", 3), ("content", 1), ("tags", 2)]
    ∧ (buildSearchBody tenantId { query with q := "" }).filter =
        (buildSearchBody tenantId query).filter
    ∧ (buildSearchBody tenantId query).filter.head? =
        some (FilterClause.term "tenant_id" tenantId) := by
  exact ⟨rfl, by decide, rfl, rfl⟩

/-! ## The Redis store (src/services/redis.service.ts)

The shared key-value store holds JSON-serialized values: cached documents,
cached search responses, and rate-limit counters.  `Backend.down` models a
Redis outage in which every underlying client call throws; the
`RedisService` wrappers catch those errors internally and degrade (`get`
returns null, `set`/`del` return false, `delPattern` returns 0), exactly as
the try/catch blocks of the source do.  Entry expiry is recorded but reads
are modelled within the TTL window (no entry consulted by a claim has
expired between the writes and reads it relates). -/

/-- A value stored in Redis, discriminated by what the service serialized. -/
inductive CacheVal
  | doc (d : Document)
  | search (r : SearchResponse)
  | count (n : Nat)
deriving DecidableEq, Repr

/-- One Redis entry: key, stored value, and the TTL in seconds it was last
set with. -/
structure KVEntry where
  key : String
  val : CacheVal
  ttlSeconds : Nat
deriving DecidableEq, Repr

/-- The Redis backend: either reachable with its current entries, or down,
in which case every client call errors. -/
inductive Backend
  | healthy (entries : List KVEntry)
  | down
deriving DecidableEq, Repr

/-- Prefix test on the character data of two strings, used to model the
Redis `KEYS pattern` glob for patterns of the literal-prefix form
`pre*`. -/
def listPre : List Char → List Char → Bool
  | [], _ => true
  | _ :: _, [] => false
  | a :: as, b :: bs => a == b && listPre as bs

/-- Glob match of a key against the pattern `pre*`. -/
def keyMatches (pre key : String) : Bool :=
  listPre pre.data key.data

/-- RedisService.get: parse and return the stored value, or null when the
key is absent; on any client error (backend down) the catch block returns
null. -/
def redisGet (b : Backend) (key : String) : Option CacheVal :=
  match b with
  | Backend.down => none
  | Backend.healthy es => (es.find? (fun e => decide (e.key = key))).map (fun e => e.val)

/-- RedisService.set with TTL: overwrite the entry and return true; on any
client error the catch block returns false. -/
def redisSet (b : Backend) (key : String) (v : CacheVal) (ttlSeconds : Nat) : Backend × Bool :=
  match b with
  | Backend.down => (Backend.down, false)
  | Backend.healthy es =>
    (Backend.healthy (⟨key, v, ttlSeconds⟩ :: es.filter (fun e => !decide (e.key = key))), true)

/-- RedisService.del: remove the entry and return true; on any client error
the catch block returns false. -/
def redisDel (b : Backend) (key : String) : Backend × Bool :=
  match b with
  | Backend.down => (Backend.down, false)
  | Backend.healthy es =>
    (Backend.healthy (es.filter (fun e => !decide (e.key = key))), true)

/-- RedisService.delPattern for a literal-prefix glob `pre*`: delete every
matching key and return how many; on any client error the catch block
returns 0. -/
def redisDelPattern (b : Backend) (pre : String) : Backend × Nat :=
  match b with
  | Backend.down => (Backend.down, 0)
  | Backend.healthy es =>
    (Backend.healthy (es.filter (fun e => !keyMatches pre e.key)),
     (es.filter (fun e => keyMatches pre e.key)).length)

/-! ## Configuration defaults (src/config/index.ts) -/

/-- Rate-limit configuration: window size in milliseconds and the maximum
requests per window. -/
structure RateLimitConfig where
  windowMs : Nat
  maxRequests : Nat
deriving DecidableEq, Repr

/-- Default rate-limit configuration from src/config/index.ts. -/
def defaultRateLimit : RateLimitConfig := ⟨60000, 100⟩

/-- Default document-cache TTL in seconds (config.cache.ttlSeconds). -/
def cacheTtlSeconds : Nat := 60

/-- Default search-cache TTL in seconds (config.cache.searchTtlSeconds). -/
def searchCacheTtlSeconds : Nat := 120

/-! ## The cache service (src/services/cache.service.ts) -/

/-- The filters record `{ tag, author, from, to }` the search route passes
to the cache service. -/
structure Filters where
  tag : Option String
  author : Option String
  fromDate : Option String
  toDate : Option String
deriving DecidableEq, Repr

/-- The spread object `{ ...filters, offset, limit }` whose JSON
serialization is hashed by `hashQuery`. -/
structure SpreadFilters where
  tag : Option String
  author : Option String
  fromDate : Option String
  toDate : Option String
  offset : Nat
  limit : Nat
deriving DecidableEq, Repr

/-- The object spread `{ ...filters, offset, limit }` of
`CacheService.getSearchKey`. -/
def spreadFilters (f : Filters) (offset limit : Nat) : SpreadFilters :=
  ⟨f.tag, f.author, f.fromDate, f.toDate, offset, limit⟩

/-- CacheService.getSearchKey.  The hash of the query and spread filters is
`hashQuery` of src/utils/hash.ts, a sha256 hex digest of the JSON
serialization `JSON.stringify({ query, filters })`; the digest is an
external crypto primitive and is passed in as an arbitrary function.  The
tenant id is never part of the hashed content: it enters the key only as
the middle segment of `search:<tenantId>:<hash>`. -/
def getSearchKey (hashQuery : String → SpreadFilters → String)
    (tenantId query : String) (filters : Filters) (offset limit : Nat) : String :=
  let queryHash := hashQuery query (spreadFilters filters offset limit)
  "search:" ++ tenantId ++ ":" ++ queryHash

/-- CacheService.getDocumentKey. -/
def getDocumentKey (tenantId docId : String) : String :=
  "doc:" ++ tenantId ++ ":" ++ docId

/-- CacheService.getSearchResult: a stored response under the derived key,
or null (a miss) when absent or when the store errors. -/
def cacheGetSearchResult (hashQuery : String → SpreadFilters → String) (b : Backend)
    (tenantId query : String) (filters : Filters) (offset limit : Nat) : Option SearchResponse :=
  match redisGet b (getSearchKey hashQuery tenantId query filters offset limit) with
  | some (CacheVal.search r) => some r
  | _ => none

/-- CacheService.setSearchResult: best-effort write with the search TTL;
the boolean outcome of the underlying set is discarded. -/
def cacheSetSearchResult (hashQuery : String → SpreadFilters → String) (b : Backend)
    (tenantId query : String) (filters : Filters) (offset limit : Nat)
    (result : SearchResponse) : Backend :=
  (redisSet b (getSearchKey hashQuery tenantId query filters offset limit)
    (CacheVal.search result) searchCacheTtlSeconds).1

/-- CacheService.getDocument. -/
def cacheGetDocument (b : Backend) (tenantId docId : String) : Option Document :=
  match redisGet b (getDocumentKey tenantId docId) with
  | some (CacheVal.doc d) => some d
  | _ => none

/-- CacheService.setDocument: best-effort write with the document TTL. -/
def cacheSetDocument (b : Backend) (tenantId docId : String) (document : Document) : Backend :=
  (redisSet b (getDocumentKey tenantId docId) (CacheVal.doc document) cacheTtlSeconds).1

/-- CacheService.invalidateDocument: delete the single document key (and
nothing else: search invalidation is a separate operation). -/
def cacheInvalidateDocument (b : Backend) (tenantId docId : String) : Backend :=
  (redisDel b (getDocumentKey tenantId docId)).1

/-- CacheService.invalidateTenantSearches: prefix-delete every search key of
the tenant, pattern `search:<tenantId>:*`. -/
def cacheInvalidateTenantSearches (b : Backend) (tenantId : String) : Backend :=
  (redisDelPattern b ("search:" ++ tenantId ++ ":")).1

/-! ## The rate limiter (src/middleware/rateLimiter.ts) -/

/-- Outcome of one admission decision, as rendered into response headers by
the middleware: either admitted with the remaining budget, or rejected with
the retry delay; both carry the window reset time.  The middleware has no
error outcome: a store failure is absorbed (fail-open). -/
inductive RLDecision
  | allow (remaining : Nat) (resetTime : Nat)
  | reject (retryAfterSeconds : Nat) (resetTime : Nat)
deriving DecidableEq, Repr

/-- Typed read of a stored counter. -/
def redisGetNum (b : Backend) (key : String) : Option Nat :=
  match redisGet b key with
  | some (CacheVal.count n) => some n
  | _ => none

/-- The counter key `ratelimit:<tenantId>:<windowStart>`. -/
def ratelimitKey (tenantId : String) (windowStart : Nat) : String :=
  "ratelimit:" ++ tenantId ++ ":" ++ toString windowStart

/-- One pass of the rate limiter middleware, translated from
src/middleware/rateLimiter.ts lines 17-55: fixed-window counter keyed by
tenant and window start; a missing counter reads as 0; at or above the
limit the request is rejected with `retryAfterSeconds` equal to the
millisecond distance to the window end divided by 1000 rounded up
(`Math.ceil`), and the counter is not incremented; below the limit the
counter is incremented and rewritten with expiry `Math.ceil(windowMs/1000)`
seconds (the window size), and the request is admitted with remaining
budget `Math.max(0, maxRequests - newCount)` (truncated subtraction). -/
def rateLimiterStep (cfg : RateLimitConfig) (tenantId : String) (now : Nat) (b : Backend) :
    RLDecision × Backend :=
  let windowStart := now / cfg.windowMs * cfg.windowMs
  let resetTime := windowStart + cfg.windowMs
  let countKey := ratelimitKey tenantId windowStart
  let currentCount := (redisGetNum b countKey).getD 0
  if currentCount ≥ cfg.maxRequests then
    (RLDecision.reject ((resetTime - now + 999) / 1000) resetTime, b)
  else
    let newCount := currentCount + 1
    ((RLDecision.allow (cfg.maxRequests - newCount) resetTime),
     (redisSet b countKey (CacheVal.count newCount) ((cfg.windowMs + 999) / 1000)).1)

/-- Sequential admission decisions for one tenant over a list of call
times. -/
def rateLimiterRun (cfg : RateLimitConfig) (tenantId : String) :
    List Nat → Backend → List RLDecision × Backend
  | [], b => ([], b)
  | n :: ns, b =>
    let step := rateLimiterStep cfg tenantId n b
    let rest := rateLimiterRun cfg tenantId ns step.2
    (step.1 :: rest.1, rest.2)

/-- C4: the rate limiter computes the fixed window start, keys the counter
by tenant and window start, rejects without incrementing once the stored
count (missing read as 0) reaches the limit, with a positive
retry-after of the rounded-up seconds to the window end, and otherwise
increments the counter, rewrites it with expiry `Math.ceil(windowMs/1000)`
seconds, and admits with the remaining budget; consequently, with
`maxRequests = 5` and a 1000 ms window, exactly five calls inside one
window are admitted, the sixth is rejected with a positive retry-after, and
the first call past the window boundary is admitted against a fresh
counter. -/
theorem rate_limiter_fixed_window (cfg : RateLimitConfig) (tenantId : String) (now : Nat)
    (b : Backend) (ws cnt : Nat)
    (hw : 0 < cfg.windowMs)
    (hws : ws = now / cfg.windowMs * cfg.windowMs)
    (hcnt : cnt = (redisGetNum b (ratelimitKey tenantId ws)).getD 0) :
    ((cnt ≥ cfg.maxRequests →
        rateLimiterStep cfg tenantId now b =
          (RLDecision.reject ((ws + cfg.windowMs - now + 999) / 1000) (ws + cfg.windowMs), b)
        ∧ 0 < (ws + cfg.windowMs - now + 999) / 1000)
     ∧ (cnt < cfg.maxRequests →
        rateLimiterStep cfg tenantId now b =
          (RLDecision.allow (cfg.maxRequests - (cnt + 1)) (ws + cfg.windowMs),
           (redisSet b (ratelimitKey tenantId ws) (CacheVal.count (cnt + 1))
             ((cfg.windowMs + 999) / 1000)).1)))
    ∧ (rateLimiterRun ⟨1000, 5⟩ "t1" [0, 1, 2, 3, 4, 5, 1000] (Backend.healthy [])).1 =
        [RLDecision.allow 4 1000, RLDecision.allow 3 1000, RLDecision.allow 2 1000,
         RLDecision.allow 1 1000, RLDecision.allow 0 1000, RLDecision.reject 1 1000,
         RLDecision.allow 4 2000] := by
  subst hws
  subst hcnt
  refine ⟨⟨fun hge => ?_, fun hlt => ?_⟩, by decide⟩
  · have hnow : now < now / cfg.windowMs * cfg.windowMs + cfg.windowMs :=
      Nat.lt_div_mul_add hw
    constructor
    · simp only [rateLimiterStep]
      rw [if_pos hge]
    · generalize now / cfg.windowMs * cfg.windowMs = A at hnow ⊢
      omega
  · simp only [rateLimiterStep]
    rw [if_neg (Nat.not_le.mpr hlt)]

/-- Witness for `rate_limiter_fixed_window` at the 1000 ms, 5-request
configuration, an empty healthy store and time 0. -/
theorem rate_limiter_fixed_window_witness :
    (0 < 1000)
    ∧ ((0 : Nat) = 0 / 1000 * 1000)
    ∧ ((0 : Nat) = (redisGetNum (Backend.healthy []) (ratelimitKey "t1" 0)).getD 0)
    ∧ (((0 ≥ 5 →
          rateLimiterStep ⟨1000, 5⟩ "t1" 0 (Backend.healthy []) =
            (RLDecision.reject ((0 + 1000 - 0 + 999) / 1000) (0 + 1000), Backend.healthy [])
          ∧ 0 < (0 + 1000 - 0 + 999) / 1000)
       ∧ (0 < 5 →
          rateLimiterStep ⟨1000, 5⟩ "t1" 0 (Backend.healthy []) =
            (RLDecision.allow (5 - (0 + 1)) (0 + 1000),
             (redisSet (Backend.healthy []) (ratelimitKey "t1" 0) (CacheVal.count (0 + 1))
               ((1000 + 999) / 1000)).1)))
      ∧ (rateLimiterRun ⟨1000, 5⟩ "t1" [0, 1, 2, 3, 4, 5, 1000] (Backend.healthy [])).1 =
          [RLDecision.allow 4 1000, RLDecision.allow 3 1000, RLDecision.allow 2 1000,
           RLDecision.allow 1 1000, RLDecision.allow 0 1000, RLDecision.reject 1 1000,
           RLDecision.allow 4 2000]) :=
  ⟨by decide, rfl, rfl,
   rate_limiter_fixed_window ⟨1000, 5⟩ "t1" 0 (Backend.healthy []) 0 0 (by decide) rfl rfl⟩

/-- C6: when the counter store is down every Redis call errors, the service
wrappers absorb the errors (the read degrades to a missing counter, the
write result is discarded), and the rate limiter admits the request; no
error reaches the caller, since the middleware produces a decision, not a
failure. -/
theorem rate_limiter_store_outage_fail_open (cfg : RateLimitConfig) (tenantId : String)
    (now : Nat) (hmax : 0 < cfg.maxRequests) :
    rateLimiterStep cfg tenantId now Backend.down =
      (RLDecision.allow (cfg.maxRequests - 1)
        (now / cfg.windowMs * cfg.windowMs + cfg.windowMs), Backend.down) := by
  simp only [rateLimiterStep]
  rw [if_neg (by simp only [redisGetNum, redisGet, Option.getD]; omega)]
  rfl

/-- Witness for `rate_limiter_store_outage_fail_open` at the default
configuration and time 12345. -/
theorem rate_limiter_store_outage_fail_open_witness :
    (0 < 100)
    ∧ rateLimiterStep defaultRateLimit "t1" 12345 Backend.down =
        (RLDecision.allow 99 60000, Backend.down) :=
  ⟨by decide, rate_limiter_store_outage_fail_open defaultRateLimit "t1" 12345 (by decide)⟩

/-! ## Document operations of OpenSearchService
(src/services/opensearch.service.ts) -/

/-- The backing index: an association of backing-index document ids to
stored documents.  The OpenSearch client indexes, fetches and deletes by
this id; indexing with an existing id overwrites. -/
abbrev IndexStore := List (String × DocumentIndex)

/-- Fetch by backing-index id; `none` is the 404 case. -/
def storeLookup (store : IndexStore) (k : String) : Option DocumentIndex :=
  (List.find? (fun e => decide (e.1 = k)) store).map (fun e => e.2)

/-- Overwrite-or-insert by backing-index id. -/
def storeUpsert (store : IndexStore) (k : String) (v : DocumentIndex) : IndexStore :=
  (k, v) :: List.filter (fun e => !decide (e.1 = k)) store

/-- The backing-index document id `<tenantId>_<docId>` used by
indexDocument, getDocument and deleteDocument. -/
def indexId (tenantId docId : String) : String :=
  tenantId ++ "_" ++ docId

/-- OpenSearchService.indexDocument: the document id defaults (by JS
truthiness) to a generated id, the stored record carries the caller-scoped
`tenant_id`, tags default to the empty list, and the timestamps default to
the service time `now`.  The generated id (a timestamp-and-random string in
the source) is passed in as `genId`. -/
def osIndexDocument (genId now : String) (store : IndexStore) (tenantId : String)
    (document : Document) : IndexStore :=
  let docId := jsOrStr document.id genId
  let indexDoc : DocumentIndex :=
    { tenant_id := tenantId
      doc_id := docId
      title := document.title
      content := document.content
      tags := some (document.tags.getD [])
      metadata := document.metadata
      created_at := jsOrStr document.createdAt now
      updated_at := jsOrStr document.updatedAt now }
  storeUpsert store (indexId tenantId docId) indexDoc

/-- OpenSearchService.mapIndexToDocument. -/
def mapIndexToDocument (source : DocumentIndex) : Document :=
  { id := some source.doc_id
    tenantId := source.tenant_id
    title := source.title
    content := source.content
    tags := source.tags
    metadata := source.metadata
    createdAt := some source.created_at
    updatedAt := some source.updated_at }

/-- OpenSearchService.getDocument: fetch by `<tenantId>_<docId>`; a 404 from
the client returns null, and a fetched document whose stored `tenant_id`
differs from the requesting tenant also returns null (the mismatch is
logged as a warning, not raised). -/
def osGetDocument (store : IndexStore) (tenantId docId : String) : Option Document :=
  match storeLookup store (indexId tenantId docId) with
  | none => none
  | some source =>
    if source.tenant_id ≠ tenantId then none
    else some (mapIndexToDocument source)

/-- OpenSearchService.deleteDocument: delete by `<tenantId>_<docId>`; a 404
returns false, a successful delete returns true.  No ownership check is
made against the stored `tenant_id` before deleting. -/
def osDeleteDocument (store : IndexStore) (tenantId docId : String) : IndexStore × Bool :=
  if (storeLookup store (indexId tenantId docId)).isSome then
    (List.filter (fun e => !decide (e.1 = indexId tenantId docId)) store, true)
  else
    (store, false)

/-! ## The document routes (src/routes/documents.routes.ts) -/

/-- An `AppError` of src/middleware/errorHandler.ts: HTTP status and
message. -/
structure AppError where
  status : Nat
  message : String
deriving DecidableEq, Repr

/-- The request body accepted by the create route, per `DocumentSchema`. -/
structure DocumentBody where
  id : Option String
  title : String
  content : String
  tags : Option (List String)
  metadata : Option Metadata
deriving DecidableEq, Repr

/-- The zod `DocumentSchema` length bounds on title and content. -/
def validDocumentBody (body : DocumentBody) : Bool :=
  1 ≤ body.title.length && body.title.length ≤ 500
    && 1 ≤ body.content.length && body.content.length ≤ 100000

/-- The create route `POST /documents`: validate, build the document with
the server-resolved tenant and fresh timestamps, index it, then invalidate
the search cache of the tenant.  The route does not invalidate the
document cache entry of the document id.  `routeNow` is the route
timestamp, `osNow` the (unused on this path, since the route always sets
the timestamps) service timestamp. -/
def docCreateRoute (genId osNow routeNow : String) (b : Backend) (store : IndexStore)
    (tenantId : String) (body : DocumentBody) : Except AppError (Backend × IndexStore) :=
  if validDocumentBody body then
    let document : Document :=
      { id := body.id
        tenantId := tenantId
        title := body.title
        content := body.content
        tags := body.tags
        metadata := body.metadata
        createdAt := some routeNow
        updatedAt := some routeNow }
    let store1 := osIndexDocument genId osNow store tenantId document
    let b1 := cacheInvalidateTenantSearches b tenantId
    Except.ok (b1, store1)
  else
    Except.error ⟨400, "Validation error"⟩

/-- The read route `GET /documents/:id`: serve from the document cache when
present; otherwise fetch from the index (a miss or tenant mismatch is a 404
"Document not found"), populate the cache and serve. -/
def docGetRoute (b : Backend) (store : IndexStore) (tenantId docId : String) :
    Except AppError (Document × Backend) :=
  match cacheGetDocument b tenantId docId with
  | some cached => Except.ok (cached, b)
  | none =>
    match osGetDocument store tenantId docId with
    | none => Except.error ⟨404, "Document not found"⟩
    | some document => Except.ok (document, cacheSetDocument b tenantId docId document)

/-- The delete route `DELETE /documents/:id`: delete from the index (a
missing document is reported as not deleted, not as an error), then
invalidate both the document cache entry and the search cache of the
tenant. -/
def docDeleteRoute (b : Backend) (store : IndexStore) (tenantId docId : String) :
    Bool × Backend × IndexStore :=
  let del := osDeleteDocument store tenantId docId
  let b1 := cacheInvalidateDocument b tenantId docId
  let b2 := cacheInvalidateTenantSearches b1 tenantId
  (del.2, b2, del.1)

/-! ## The search route (src/routes/search.routes.ts) -/

/-- The raw query-string parameters of `GET /search`. -/
structure RawSearchParams where
  q : Option String
  offset : Option String
  limit : Option String
  tag : Option String
  author : Option String
  fromDate : Option String
  toDate : Option String
deriving DecidableEq, Repr

/-- The zod rule for `q`: optional, but non-empty when present. -/
def parseQParam (o : Option String) : Except String (Option String) :=
  match o with
  | none => Except.ok none
  | some s => if 1 ≤ s.length then Except.ok (some s) else Except.error "Invalid query parameters"

/-- The zod rule for `offset` and `limit`: optional, and when present must
match `^\d+$` and is converted to its numeric value. -/
def parseNatParam (o : Option String) : Except String (Option Nat) :=
  match o with
  | none => Except.ok none
  | some s =>
    match strToNat? s with
    | some n => Except.ok (some n)
    | none => Except.error "Invalid query parameters"

/-- Validation and defaulting of the search parameters, from the `GET /`
handler of src/routes/search.routes.ts: any parameter violating its schema
is a 400 validation error; otherwise `q` defaults to the empty string,
`offset` to 0 and `limit` to 10 (all by JS truthiness, so `limit=0` also
takes the default), and a limit above 50 is silently replaced by 50. -/
def parseSearchParams (raw : RawSearchParams) : Except String SearchQuery :=
  match parseQParam raw.q, parseNatParam raw.offset, parseNatParam raw.limit with
  | Except.ok qv, Except.ok ov, Except.ok lv =>
    let q0 := jsOrStr qv ""
    let o0 := jsOrNat ov 0
    let l0 := jsOrNat lv 10
    let l1 := if l0 > 50 then 50 else l0
    Except.ok
      { q := q0, offset := some o0, limit := some l1
        tag := raw.tag, author := raw.author, fromDate := raw.fromDate, toDate := raw.toDate }
  | _, _, _ => Except.error "Invalid query parameters"

/-- The cache-aside body of the search handler, after validation: check the
search cache under the derived key; on a hit answer from the cache; on a
miss execute the search, build the response and write it back
best-effort. -/
def searchRoute (hashQuery : String → SpreadFilters → String)
    (engine : SearchBody → EngineResponse) (b : Backend) (tenantId : String)
    (query : SearchQuery) : SearchResponse × Backend :=
  let filters : Filters := ⟨query.tag, query.author, query.fromDate, query.toDate⟩
  let offset := jsOrNat query.offset 0
  let limit := jsOrNat query.limit 10
  match cacheGetSearchResult hashQuery b tenantId query.q filters offset limit with
  | some cached => (cached, b)
  | none =>
    let found := osSearch engine tenantId query
    let response : SearchResponse :=
      { tenantId := tenantId, query := query.q, offset := offset, limit := limit
        total := found.2, results := found.1 }
    (response, cacheSetSearchResult hashQuery b tenantId query.q filters offset limit response)

/-! ## Helper lemmas -/

/-- Character data of a string concatenation. -/
theorem data_append (a b : String) : (a ++ b).data = a.data ++ b.data := rfl

/-- Searching a list filtered by the negation of the search predicate finds
nothing. -/
theorem find?_filter_neg_none {α : Type} (p : α → Bool) (l : List α) :
    List.find? p (List.filter (fun e => !p e) l) = none := by
  rw [List.find?_eq_none]
  intro x hx
  have hq := (List.mem_filter.mp hx).2
  simp only [Bool.not_eq_true'] at hq
  simp [hq]

/-- A failed search stays failed on any filtered sublist. -/
theorem find?_filter_none {α : Type} (p q : α → Bool) (l : List α)
    (h : List.find? p l = none) : List.find? p (List.filter q l) = none := by
  rw [List.find?_eq_none] at h ⊢
  intro x hx
  exact h x (List.mem_filter.mp hx).1

/-- Filtering by a predicate implied by the search predicate does not change
the first match. -/
theorem find?_filter_eq {α : Type} (p q : α → Bool) (l : List α)
    (h : ∀ e, p e = true → q e = true) :
    List.find? p (List.filter q l) = List.find? p l := by
  induction l with
  | nil => rfl
  | cons e es ih =>
    by_cases hq : q e = true
    · rw [List.filter_cons_of_pos hq]
      by_cases hp : p e = true
      · rw [List.find?_cons_of_pos _ hp, List.find?_cons_of_pos _ hp]
      · rw [List.find?_cons_of_neg _ hp, List.find?_cons_of_neg _ hp]
        exact ih
    · rw [List.filter_cons_of_neg hq]
      have hp : ¬ p e = true := fun hpe => hq (h e hpe)
      rw [List.find?_cons_of_neg _ hp]
      exact ih

/-- The search-cache prefix pattern of a tenant never matches a document
cache key: the former starts with `search:`, the latter with `doc:`. -/
theorem searchPattern_not_match_docKey (t t2 d2 : String) :
    keyMatches ("search:" ++ t ++ ":") (getDocumentKey t2 d2) = false := by
  show listPre ("search:" ++ t ++ ":").data (getDocumentKey t2 d2).data = false
  have h1 : ("search:" ++ t ++ ":").data = 's' :: ("earch:" ++ t ++ ":").data := rfl
  have h2 : (getDocumentKey t2 d2).data = 'd' :: ("oc:" ++ t2 ++ ":" ++ d2).data := rfl
  rw [h1, h2]
  show (('s' == 'd') && listPre ("earch:" ++ t ++ ":").data ("oc:" ++ t2 ++ ":" ++ d2).data)
        = false
  rw [show ('s' == 'd') = false from rfl, Bool.false_and]

/-- C5: on a full Redis outage every store call degrades instead of
throwing: a read is reported as a miss (`none`), a write reports failure
without propagating it, the derived-key cache read is a miss, and the
search route answers with exactly the response assembled from the index
engine result, leaving the backend unchanged; the route is total, so no
cache error reaches the caller. -/
theorem search_fail_open_on_cache_outage :
    (∀ key, redisGet Backend.down key = none)
    ∧ (∀ key v ttlSeconds, redisSet Backend.down key v ttlSeconds = (Backend.down, false))
    ∧ (∀ (hashQuery : String → SpreadFilters → String) (tenantId query : String)
        (filters : Filters) (offset limit : Nat),
        cacheGetSearchResult hashQuery Backend.down tenantId query filters offset limit = none)
    ∧ (∀ (hashQuery : String → SpreadFilters → String) (engine : SearchBody → EngineResponse)
        (tenantId : String) (query : SearchQuery),
        searchRoute hashQuery engine Backend.down tenantId query =
          ({ tenantId := tenantId, query := query.q
             offset := jsOrNat query.offset 0, limit := jsOrNat query.limit 10
             total := (osSearch engine tenantId query).2
             results := (osSearch engine tenantId query).1 }, Backend.down)) :=
  ⟨fun _ => rfl, fun _ _ _ => rfl, fun _ _ _ _ _ _ => rfl, fun _ _ _ _ => rfl⟩

/-- C7: a document fetched from the index whose stored tenant differs from
the requesting tenant is treated exactly as not found: the service returns
null, and the read route produces the same 404 "Document not found" it
produces for a document that does not exist at all. -/
theorem tenant_mismatch_treated_as_not_found (store : IndexStore) (b : Backend)
    (tenantId docId : String) (source : DocumentIndex)
    (hfound : storeLookup store (indexId tenantId docId) = some source)
    (hmismatch : source.tenant_id ≠ tenantId)
    (hnocache : cacheGetDocument b tenantId docId = none) :
    osGetDocument store tenantId docId = none
    ∧ docGetRoute b store tenantId docId = Except.error ⟨404, "Document not found"⟩
    ∧ ∀ absent : IndexStore, storeLookup absent (indexId tenantId docId) = none →
        docGetRoute b absent tenantId docId = Except.error ⟨404, "Document not found"⟩ := by
  have h1 : osGetDocument store tenantId docId = none := by
    simp only [osGetDocument, hfound]
    rw [if_pos hmismatch]
  refine ⟨h1, ?_, ?_⟩
  · simp only [docGetRoute, hnocache, h1]
  · intro absent habsent
    simp only [docGetRoute, hnocache, osGetDocument, habsent]

/-- Witness for `tenant_mismatch_treated_as_not_found`: a store holding a
document of tenant `x` under the backing id `a_b`, read by tenant `a`. -/
theorem tenant_mismatch_treated_as_not_found_witness :
    (storeLookup [(indexId "a" "b", ⟨"x", "b", "T", "C", some [], none, "n", "n"⟩)]
        (indexId "a" "b") = some ⟨"x", "b", "T", "C", some [], none, "n", "n"⟩)
    ∧ (("x" : String) ≠ "a")
    ∧ (cacheGetDocument (Backend.healthy []) "a" "b" = none)
    ∧ (osGetDocument [(indexId "a" "b", ⟨"x", "b", "T", "C", some [], none, "n", "n"⟩)]
          "a" "b" = none
       ∧ docGetRoute (Backend.healthy [])
          [(indexId "a" "b", ⟨"x", "b", "T", "C", some [], none, "n", "n"⟩)] "a" "b" =
          Except.error ⟨404, "Document not found"⟩
       ∧ ∀ absent : IndexStore, storeLookup absent (indexId "a" "b") = none →
          docGetRoute (Backend.healthy []) absent "a" "b" =
            Except.error ⟨404, "Document not found"⟩) :=
  ⟨rfl, by decide, rfl,
   tenant_mismatch_treated_as_not_found
     [(indexId "a" "b", ⟨"x", "b", "T", "C", some [], none, "n", "n"⟩)]
     (Backend.healthy []) "a" "b" ⟨"x", "b", "T", "C", some [], none, "n", "n"⟩
     rfl (by decide) rfl⟩

/-! ## Claim C2: cache invalidation on mutation -/

/-- The backing-index record stored by the first create of `d1`. -/
def c2IndexDoc1 : DocumentIndex :=
  ⟨"t1", "d1", "A", "B", some [], none, "n1", "n1"⟩

/-- The backing-index record stored by the re-index of `d1`. -/
def c2IndexDoc2 : DocumentIndex :=
  ⟨"t1", "d1", "A2", "B2", some [], none, "n2", "n2"⟩

/-- The document served and cached by the first read of `d1`. -/
def c2Doc1 : Document :=
  ⟨some "d1", "t1", "A", "B", some [], none, some "n1", some "n1"⟩

/-- The document the index holds for `d1` after the re-index. -/
def c2Doc2 : Document :=
  ⟨some "d1", "t1", "A2", "B2", some [], none, some "n2", some "n2"⟩

/-- The backend after the first read populated the document cache. -/
def c2Cached : Backend :=
  Backend.healthy [⟨"doc:t1:d1", CacheVal.doc c2Doc1, 60⟩]

/-- Counterexample to C2 as stated: create document `d1` for tenant `t1`,
read it (which caches it), then index a changed document under the same id.
The create route invalidates only the search cache of the tenant, never the
document cache entry, so the subsequent read still returns the
pre-mutation cached document, which differs from the document now stored in
the index. -/
theorem stale_document_cache_after_reindex :
    docCreateRoute "gen" "n1" "n1" (Backend.healthy []) [] "t1"
        ⟨some "d1", "A", "B", none, none⟩
      = Except.ok (Backend.healthy [], [("t1_d1", c2IndexDoc1)])
    ∧ docGetRoute (Backend.healthy []) [("t1_d1", c2IndexDoc1)] "t1" "d1"
      = Except.ok (c2Doc1, c2Cached)
    ∧ docCreateRoute "gen" "n2" "n2" c2Cached [("t1_d1", c2IndexDoc1)] "t1"
        ⟨some "d1", "A2", "B2", none, none⟩
      = Except.ok (c2Cached, [("t1_d1", c2IndexDoc2)])
    ∧ docGetRoute c2Cached [("t1_d1", c2IndexDoc2)] "t1" "d1" = Except.ok (c2Doc1, c2Cached)
    ∧ osGetDocument [("t1_d1", c2IndexDoc2)] "t1" "d1" = some c2Doc2
    ∧ c2Doc1 ≠ c2Doc2 :=
  ⟨rfl, rfl, rfl, rfl, rfl, by decide⟩

/-- C2 amended: after the delete route completes, the document cache entry
is gone and a subsequent read is a 404 not-found, never the pre-mutation
cached value; after the create/index route completes, however, only the
search caches of the tenant are invalidated: every document cache entry,
including that of the re-indexed document, is untouched and can still serve
the pre-mutation value until its TTL expires. -/
theorem delete_invalidates_document_cache_but_index_does_not :
    (∀ (b : Backend) (store : IndexStore) (tenantId docId : String),
        cacheGetDocument (docDeleteRoute b store tenantId docId).2.1 tenantId docId = none
        ∧ docGetRoute (docDeleteRoute b store tenantId docId).2.1
            (docDeleteRoute b store tenantId docId).2.2 tenantId docId =
            Except.error ⟨404, "Document not found"⟩)
    ∧ (∀ (genId osNow routeNow : String) (b : Backend) (store : IndexStore)
        (tenantId : String) (body : DocumentBody) (b1 : Backend) (store1 : IndexStore),
        docCreateRoute genId osNow routeNow b store tenantId body = Except.ok (b1, store1) →
        ∀ tenantId2 docId2 : String,
          cacheGetDocument b1 tenantId2 docId2 = cacheGetDocument b tenantId2 docId2) := by
  constructor
  · intro b store tenantId docId
    have hcache :
        cacheGetDocument (docDeleteRoute b store tenantId docId).2.1 tenantId docId = none := by
      cases b with
      | down => rfl
      | healthy es =>
        simp only [docDeleteRoute, cacheGetDocument, cacheInvalidateDocument,
          cacheInvalidateTenantSearches, redisGet, redisDel, redisDelPattern]
        rw [find?_filter_none _ _ _
          (find?_filter_neg_none (fun e => decide (e.key = getDocumentKey tenantId docId)) es)]
        rfl
    have hstore :
        storeLookup (docDeleteRoute b store tenantId docId).2.2 (indexId tenantId docId)
          = none := by
      simp only [docDeleteRoute, osDeleteDocument]
      by_cases hf : (storeLookup store (indexId tenantId docId)).isSome
      · rw [if_pos hf]
        simp only [storeLookup]
        rw [find?_filter_neg_none (fun e => decide (e.1 = indexId tenantId docId)) store]
        rfl
      · rw [if_neg hf]
        exact Option.not_isSome_iff_eq_none.mp hf
    refine ⟨hcache, ?_⟩
    simp only [docGetRoute, hcache, osGetDocument, hstore]
  · intro genId osNow routeNow b store tenantId body b1 store1 hok tenantId2 docId2
    have hb1 : b1 = cacheInvalidateTenantSearches b tenantId := by
      by_cases hv : validDocumentBody body = true
      · simp only [docCreateRoute, hv, if_true, Except.ok.injEq, Prod.mk.injEq] at hok
        exact hok.1.symm
      · simp only [docCreateRoute, hv] at hok
        exact absurd hok (by simp)
    subst hb1
    cases b with
    | down => rfl
    | healthy es =>
      simp only [cacheGetDocument, cacheInvalidateTenantSearches, redisGet, redisDelPattern]
      rw [find?_filter_eq _ _ es]
      intro e hpe
      have hk : e.key = getDocumentKey tenantId2 docId2 := of_decide_eq_true hpe
      rw [hk, searchPattern_not_match_docKey]
      rfl

/-- Witness for `delete_invalidates_document_cache_but_index_does_not`: the
delete part on the concrete populated state of the counterexample, and the
create part on the concrete create call of the counterexample. -/
theorem delete_invalidates_document_cache_witness :
    (cacheGetDocument (docDeleteRoute c2Cached [("t1_d1", c2IndexDoc2)] "t1" "d1").2.1
        "t1" "d1" = none
     ∧ docGetRoute (docDeleteRoute c2Cached [("t1_d1", c2IndexDoc2)] "t1" "d1").2.1
        (docDeleteRoute c2Cached [("t1_d1", c2IndexDoc2)] "t1" "d1").2.2 "t1" "d1" =
        Except.error ⟨404, "Document not found"⟩)
    ∧ (docCreateRoute "gen" "n2" "n2" c2Cached [("t1_d1", c2IndexDoc1)] "t1"
        ⟨some "d1", "A2", "B2", none, none⟩ = Except.ok (c2Cached, [("t1_d1", c2IndexDoc2)]))
    ∧ cacheGetDocument c2Cached "t1" "d1" = cacheGetDocument c2Cached "t1" "d1" :=
  ⟨delete_invalidates_document_cache_but_index_does_not.1 c2Cached
     [("t1_d1", c2IndexDoc2)] "t1" "d1",
   rfl,
   delete_invalidates_document_cache_but_index_does_not.2 "gen" "n2" "n2" c2Cached
     [("t1_d1", c2IndexDoc1)] "t1" ⟨some "d1", "A2", "B2", none, none⟩ c2Cached
     [("t1_d1", c2IndexDoc2)] rfl "t1" "d1"⟩

/-! ## Claim C3: limit and offset handling -/

/-- A raw search request whose only parameter is `limit`. -/
def rawWithLimit (s : Option String) : RawSearchParams :=
  ⟨none, none, s, none, none, none, none⟩

/-- A raw search request whose only parameter is `offset`. -/
def rawWithOffset (s : Option String) : RawSearchParams :=
  ⟨none, s, none, none, none, none, none⟩

/-- The parsed query such a request yields when it passes validation. -/
def queryWithLimit (n : Nat) : SearchQuery :=
  ⟨"", some 0, some n, none, none, none, none⟩

/-- Counterexample to C3 as stated: `limit=0` passes validation and is
served with the default limit 10, not with 1; and a limit that is not a
digit string, such as `-1`, is rejected as a validation error rather than
being served, so the limit parameter can cause an error. -/
theorem limit_zero_served_as_default_ten :
    parseSearchParams (rawWithLimit (some "0")) = Except.ok (queryWithLimit 10)
    ∧ queryWithLimit 10 ≠ queryWithLimit 1
    ∧ parseSearchParams (rawWithLimit (some "-1")) = Except.error "Invalid query parameters" :=
  ⟨rfl, by decide, rfl⟩

/-- C3 amended: a digit-string limit between 1 and 50 is served as given, a
digit-string limit above 50 is silently served as 50, a limit of 0 (like a
missing limit) is served as the default 10, and a limit or offset that is
not a digit string — in particular any negative value such as `-1` — is
rejected as a validation error; the engine-side body independently caps the
size at 50 after defaulting a missing or zero limit to 10. -/
theorem limit_clamp_and_offset_validation :
    (∀ s n, strToNat? s = some n → 0 < n → n ≤ 50 →
        parseSearchParams (rawWithLimit (some s)) = Except.ok (queryWithLimit n))
    ∧ (∀ s n, strToNat? s = some n → 50 < n →
        parseSearchParams (rawWithLimit (some s)) = Except.ok (queryWithLimit 50))
    ∧ (∀ s, strToNat? s = some 0 →
        parseSearchParams (rawWithLimit (some s)) = Except.ok (queryWithLimit 10))
    ∧ (∀ s, strToNat? s = none →
        parseSearchParams (rawWithLimit (some s)) = Except.error "Invalid query parameters")
    ∧ (∀ s, strToNat? s = none →
        parseSearchParams (rawWithOffset (some s)) = Except.error "Invalid query parameters")
    ∧ strToNat? "-1" = none
    ∧ (∀ (tenantId : String) (query : SearchQuery),
        (buildSearchBody tenantId query).size = min (jsOrNat query.limit 10) 50) := by
  refine ⟨?_, ?_, ?_, ?_, ?_, by decide, fun _ _ => rfl⟩
  · intro s n h h0 h50
    simp only [parseSearchParams, rawWithLimit, parseQParam, parseNatParam, h, jsOrStr,
      jsOrNat, queryWithLimit]
    rw [if_neg (by omega : ¬ n = 0), if_neg (by omega : ¬ n > 50)]
  · intro s n h h50
    simp only [parseSearchParams, rawWithLimit, parseQParam, parseNatParam, h, jsOrStr,
      jsOrNat, queryWithLimit]
    rw [if_neg (by omega : ¬ n = 0), if_pos (by omega : n > 50)]
  · intro s h
    simp only [parseSearchParams, rawWithLimit, parseQParam, parseNatParam, h, jsOrStr,
      jsOrNat, queryWithLimit]
    simp
  · intro s h
    simp only [parseSearchParams, rawWithLimit, parseQParam, parseNatParam, h]
  · intro s h
    simp only [parseSearchParams, rawWithOffset, parseQParam, parseNatParam, h]

/-- Witness for `limit_clamp_and_offset_validation` at the in-range limit
string `7`. -/
theorem limit_clamp_and_offset_validation_witness :
    strToNat? "7" = some 7
    ∧ 0 < 7
    ∧ 7 ≤ 50
    ∧ parseSearchParams (rawWithLimit (some "7")) = Except.ok (queryWithLimit 7) :=
  ⟨rfl, by decide, by decide,
   limit_clamp_and_offset_validation.1 "7" 7 rfl (by decide) (by decide)⟩

/-! ## Claim C9: determinism and tenant injectivity of the search key -/

/-- C9: the derived search key is a pure function of its arguments, so two
calls with identical tenant, query, filters, offset and limit agree, and
the key determines the tenant: with every other argument fixed, two derived
keys (for any digest function) are equal exactly when the tenant ids are —
the tenant id never enters the hashed content and appears as the
delimited middle segment of the key. -/
theorem search_key_deterministic_and_tenant_injective
    (hashQuery : String → SpreadFilters → String) (query : String) (filters : Filters)
    (offset limit : Nat) (t1 t2 : String) :
    getSearchKey hashQuery t1 query filters offset limit =
      getSearchKey hashQuery t2 query filters offset limit ↔ t1 = t2 := by
  constructor
  · intro h
    have hd := congrArg String.data h
    simp only [getSearchKey, data_append] at hd
    have h1 := List.append_cancel_right hd
    have h2 := List.append_cancel_right h1
    have h3 := List.append_cancel_left h2
    exact congrArg String.mk h3
  · intro h
    rw [h]

/-! ## Claim C10: backing-index id construction -/

/-- Counterexample to C10 as stated: the pairs `("a", "b_c")` and
`("a_b", "c")` are distinct but map to the same backing-index id
`a_b_c`. -/
theorem index_id_collision :
    indexId "a" "b_c" = indexId "a_b" "c"
    ∧ ¬ (("a" : String) = "a_b" ∧ ("b_c" : String) = "c") :=
  ⟨rfl, by decide⟩

/-- The `TenantIdSchema` of src/middleware/tenant.ts: between 1 and 100
characters drawn from letters, digits, hyphen and underscore. -/
def tenantIdValid (s : String) : Bool :=
  (1 ≤ s.length && s.length ≤ 100)
    && s.data.all (fun c => c.isAlphanum || c == '-' || c == '_')

/-- Splitting at a separator absent from both left parts is injective. -/
theorem sep_append_inj {α : Type} (c : α) :
    ∀ (l1 l2 r1 r2 : List α), c ∉ l1 → c ∉ l2 →
      l1 ++ c :: r1 = l2 ++ c :: r2 → l1 = l2 ∧ r1 = r2 := by
  intro l1
  induction l1 with
  | nil =>
    intro l2 r1 r2 h1 h2 h
    cases l2 with
    | nil =>
      simp only [List.nil_append, List.cons.injEq] at h
      exact ⟨rfl, h.2⟩
    | cons b bs =>
      simp only [List.nil_append, List.cons_append, List.cons.injEq] at h
      exact absurd (h.1 ▸ List.mem_cons_self b bs) h2
  | cons a as ih =>
    intro l2 r1 r2 h1 h2 h
    cases l2 with
    | nil =>
      simp only [List.cons_append, List.nil_append, List.cons.injEq] at h
      exact absurd (h.1 ▸ List.mem_cons_self a as) h1
    | cons b bs =>
      simp only [List.cons_append, List.cons.injEq] at h
      have htail := ih bs r1 r2 (fun hm => h1 (List.mem_cons_of_mem a hm))
        (fun hm => h2 (List.mem_cons_of_mem b hm)) h.2
      exact ⟨by rw [h.1, htail.1], htail.2⟩

/-- C10 amended: backing-index ids `<tenantId>_<docId>` are distinct for
distinct pairs as long as the tenant ids contain no underscore; but valid
tenant ids may contain underscores, under which the construction collides
(`("a", "b_c")` and `("a_b", "c")` both yield `a_b_c`), and deleteDocument
checks no stored ownership, so a delete issued by tenant `a_b` for doc `c`
removes the colliding document owned by tenant `a`. -/
theorem index_id_injective_only_without_underscores :
    (∀ t1 d1 t2 d2 : String, ('_' ∉ t1.data) → ('_' ∉ t2.data) →
        indexId t1 d1 = indexId t2 d2 → t1 = t2 ∧ d1 = d2)
    ∧ tenantIdValid "a" = true
    ∧ tenantIdValid "a_b" = true
    ∧ osDeleteDocument [(indexId "a" "b_c", ⟨"a", "b_c", "T", "C", some [], none, "n", "n"⟩)]
        "a_b" "c" = ([], true) := by
  refine ⟨?_, by decide, by decide, rfl⟩
  intro t1 d1 t2 d2 h1 h2 h
  have hd := congrArg String.data h
  simp only [indexId, data_append] at hd
  rw [List.append_assoc, List.append_assoc, List.singleton_append,
    List.singleton_append] at hd
  have hinj := sep_append_inj '_' t1.data t2.data d1.data d2.data h1 h2 hd
  exact ⟨congrArg String.mk hinj.1, congrArg String.mk hinj.2⟩

/-- Witness for `index_id_injective_only_without_underscores` at the
underscore-free tenant ids `x` and `x`. -/
theorem index_id_injective_only_without_underscores_witness :
    ('_' ∉ ("x" : String).data)
    ∧ (("x" : String) = "x" ∧ ("y" : String) = "y") :=
  ⟨by decide,
   index_id_injective_only_without_underscores.1 "x" "y" "x" "y" (by decide) (by decide) rfl⟩

end FetchDoccy
